import Mathlib

/-!
Shallow embedding of `classes.py` (generosity_optimizer), used to check the
natural-language specification against the code.

Conventions of the embedding:
* Python floats are idealised as exact arithmetic: the pure components are
  generic over a `LinearOrderedField` (instantiated at `ℚ` for concrete
  evaluation); the `PortfolioManager` layer lives over `ℝ` because
  `forward_adjust` is called with a fractional exponent (real power).
* Python exceptions are `Except PyErr` / an `Option PyErr` component of the
  result; mutations performed before the exception was raised persist in the
  returned state, as they do on a Python object.
* `round(x, 2)` is Python's round-half-to-even, `int(x)` truncates toward 0.
* pandas dataframes that are only ever written (reporting sinks) are either
  dropped or kept as plain lists of rows; the dataframe columns that the code
  reads back (`Investment.grow`'s grow-rows, `Asset.grow`'s
  `years_from_start` column) are kept faithfully.
-/

/-- Python exception kinds raised by the code paths modelled here. -/
inductive PyErr where
  | typeError
  | valueError
  | keyError
  | nameError
deriving DecidableEq, Repr

set_option linter.unusedSectionVars false

section Prelim

variable {α : Type} [LinearOrderedField α] [FloorRing α]

/-- Python's `round` to an integer: round-half-to-even (banker's rounding). -/
def pyRound (x : α) : ℤ :=
  if Int.fract x = 1 / 2 then
    (if ⌊x⌋ % 2 = 0 then ⌊x⌋ else ⌊x⌋ + 1)
  else round x

/-- Python's `round(x, 2)` (round to cents). -/
def round2 (x : α) : α := (pyRound (x * 100) : α) / 100

/-- Python's `int(x)` on a float: truncation toward zero. -/
def pyInt (x : α) : ℤ := if 0 ≤ x then ⌊x⌋ else ⌈x⌉

/-- Maximum of a list (`pandas` `Series.max` on a nonempty column);
`none` on the empty list (pandas yields `NaN` there, and every comparison
with `NaN` is false — call sites model that case explicitly). -/
def listMax : List α → Option α
  | [] => none
  | x :: xs =>
    match listMax xs with
    | none => some x
    | some m => some (max x m)

theorem listMax_nil_iff (l : List α) : listMax l = none ↔ l = [] := by
  cases l with
  | nil => simp [listMax]
  | cons x xs =>
    simp only [listMax]
    cases listMax xs <;> simp

theorem listMax_mem {l : List α} : ∀ {m : α}, listMax l = some m → m ∈ l := by
  induction l with
  | nil => intro m h; simp [listMax] at h
  | cons x xs ih =>
    intro m h
    simp only [listMax] at h
    cases hx : listMax xs with
    | none =>
      rw [hx] at h
      simp at h
      rw [← h]
      exact List.mem_cons_self x xs
    | some m' =>
      rw [hx] at h
      simp at h
      rcases le_total x m' with hle | hle
      · have hm : m = m' := by rw [← h]; exact max_eq_right hle
        rw [hm]
        exact List.mem_cons_of_mem x (ih hx)
      · have hm : m = x := by rw [← h]; exact max_eq_left hle
        rw [hm]
        exact List.mem_cons_self x xs

theorem le_listMax {l : List α} : ∀ {m : α}, listMax l = some m →
    ∀ x ∈ l, x ≤ m := by
  induction l with
  | nil => intro m _ x hx; simp at hx
  | cons y ys ih =>
    intro m h x hx
    simp only [listMax] at h
    cases hy : listMax ys with
    | none =>
      rw [hy] at h
      simp at h
      have : ys = [] := (listMax_nil_iff ys).mp hy
      subst this
      simp at hx
      rw [hx, ← h]
    | some m' =>
      rw [hy] at h
      rcases List.mem_cons.mp hx with rfl | hx'
      · rw [← show max x m' = m from by simpa using h]
        exact le_max_left _ _
      · rw [← show max y m' = m from by simpa using h]
        exact le_trans (ih hy x hx') (le_max_right _ _)

theorem listMax_lt_iff {l : List α} {m t : α} (h : listMax l = some m) :
    m < t ↔ ∀ x ∈ l, x < t := by
  constructor
  · intro hmt x hx
    exact lt_of_le_of_lt (le_listMax h x hx) hmt
  · intro hall
    exact hall m (listMax_mem h)

theorem listMax_concat {l : List α} {t : α}
    (h : ∀ x ∈ l, x ≤ t) : listMax (l.concat t) = some t := by
  induction l with
  | nil => simp [List.concat, listMax]
  | cons y ys ih =>
    simp only [List.concat_cons, listMax]
    rw [ih (fun x hx => h x (List.mem_cons_of_mem y hx))]
    simp [max_eq_right (h y (List.mem_cons_self y ys))]

theorem listMax_append_big {l : List α} {t : α}
    (h : ∀ x ∈ l, x ≤ t) : listMax (l ++ [t]) = some t := by
  rw [← List.concat_eq_append]
  exact listMax_concat h

/-- Python `dict` lookup, `d[k]`: the value stored under `k`, if any. -/
def dget (d : List (ℕ × α)) (k : ℕ) : Option α :=
  (d.find? (fun p => p.1 == k)).map (·.2)

/-- Python `dict` assignment `d[k] = v`: overwrite in place or append. -/
def dset : List (ℕ × α) → ℕ → α → List (ℕ × α)
  | [], k, v => [(k, v)]
  | (k', v') :: rest, k, v =>
    if k' = k then (k, v) :: rest else (k', v') :: dset rest k v

/-- `sum(d.values())`. -/
def dsum (d : List (ℕ × α)) : α := d.foldr (fun p acc => p.2 + acc) 0

theorem dget_dset (d : List (ℕ × α)) (k : ℕ) (v : α) :
    dget (dset d k v) k = some v := by
  induction d with
  | nil => simp [dget, dset, List.find?]
  | cons p rest ih =>
    obtain ⟨k', v'⟩ := p
    by_cases hk : k' = k
    · subst hk
      simp [dget, dset, List.find?]
    · have hb : (k' == k) = false := by simpa using hk
      simp only [dset, if_neg hk, dget, List.find?_cons, hb]
      simpa [dget] using ih

end Prelim

/-! ## Components of `classes.py`, generic over a linear ordered field -/

section Components

variable {α : Type} [LinearOrderedField α] [FloorRing α]

/-- `class InflationAdjuster` (classes.py:233-241). -/
structure InflationAdjuster (α : Type) where
  inflation_rate : α

namespace InflationAdjuster

/-- `reverse_adjust(amount, years) = amount * (1 - inflation_rate) ** years`
(classes.py:237-238); the code only calls it with `int` years. -/
def reverse_adjust (ia : InflationAdjuster α) (amount : α) (years : ℤ) : α :=
  amount * (1 - ia.inflation_rate) ^ years

/-- `forward_adjust(amount, years) = amount * (1 + inflation_rate) ** years`
(classes.py:240-241), for an integer number of years. -/
def forward_adjust (ia : InflationAdjuster α) (amount : α) (years : ℤ) : α :=
  amount * (1 + ia.inflation_rate) ^ years

/-- `forward_adjust` as called from `_manage_income` (classes.py:102) with a
fractional `years_from_start`: Python `**` on floats is real exponentiation. -/
noncomputable def forward_adjustR (ia : InflationAdjuster ℝ) (amount years : ℝ) : ℝ :=
  amount * (1 + ia.inflation_rate) ^ years

end InflationAdjuster

/-- `class SpendingStrategy` (classes.py:192-214), fields as set in `__init__`. -/
structure SpendingStrategy (α : Type) where
  base_spending : α
  retirement_saving : α
  disposible_spending : α
  disp_spend : α
  disp_give : α
  disp_invest : α

/-- `SpendingStrategy.__init__(base_spending, retirement_saving, disp_spend,
disp_give)` (classes.py:193-205). -/
def SpendingStrategy.init (base_spending retirement_saving disp_spend disp_give : α) :
    SpendingStrategy α :=
  { base_spending := base_spending
    retirement_saving := retirement_saving
    disposible_spending := 1 - base_spending - retirement_saving
    disp_spend := disp_spend
    disp_give := disp_give
    disp_invest := 1 - disp_spend - disp_give }

/-- `base_retirement_spend_invest_give(paycheck)` (classes.py:207-214):
(base spending, retirement saving, disposable spend, disposable invest,
disposable give). -/
def SpendingStrategy.base_retirement_spend_invest_give (s : SpendingStrategy α)
    (paycheck : α) : α × α × α × α × α :=
  (paycheck * s.base_spending,
   paycheck * s.retirement_saving,
   paycheck * s.disposible_spending * s.disp_spend,
   paycheck * s.disposible_spending * s.disp_invest,
   paycheck * s.disposible_spending * s.disp_give)

/-- `class GenerosityStrategy` (classes.py:217-230). -/
structure GenerosityStrategy (α : Type) where
  straight_percent : α
  investment_percent : α
  investment_draw_down_rate : α
  legacy_give_percent : α

/-- `GenerosityStrategy.__init__` (classes.py:218-227): the stored draw-down
rate is the constructor argument divided by 12. -/
def GenerosityStrategy.init (straight_percent investment_draw_down_rate
    legacy_give_percent : α) : GenerosityStrategy α :=
  { straight_percent := straight_percent
    investment_percent := 1 - straight_percent
    investment_draw_down_rate := investment_draw_down_rate / 12
    legacy_give_percent := legacy_give_percent }

/-- `straight_invest(paycheck)` (classes.py:229-230). -/
def GenerosityStrategy.straight_invest (g : GenerosityStrategy α) (paycheck : α) :
    α × α :=
  (paycheck * g.straight_percent, paycheck * g.investment_percent)

/-- `class Salary` (classes.py:304-312). -/
structure Salary (α : Type) where
  salary : α

/-- `get_paid()` (classes.py:308-309). -/
def Salary.get_paid (s : Salary α) : α := s.salary / 12

/-- `get_raise(multiplier)` (classes.py:311-312). -/
def Salary.get_raise (s : Salary α) (multiplier : α) : Salary α :=
  { salary := s.salary * multiplier }

/-- `class SpendingTracker` (classes.py:287-301): running total plus the
append-only log rows `(Spending, Total, years_from_start)`. -/
structure SpendingTracker (α : Type) where
  total : α
  log : List (α × α × α)

def SpendingTracker.init : SpendingTracker α := { total := 0, log := [] }

/-- `SpendingTracker.add(amount, years_from_start)` (classes.py:292-301). -/
def SpendingTracker.add (s : SpendingTracker α) (amount years_from_start : α) :
    SpendingTracker α :=
  { total := s.total + amount
    log := s.log ++ [(amount, s.total + amount, years_from_start)] }

/-- `class TaxCalculator` (classes.py:244-284): two dicts keyed by month. -/
structure TaxCalculator (α : Type) where
  year_to_date : List (ℕ × α)
  projected_inflation_adjusted_income : List (ℕ × α)

/-- The fixed class-level bracket table `TaxCalculator.tax_brackets`
(classes.py:245-252), in source order. -/
def tax_brackets (α : Type) [LinearOrderedField α] : List ((α × α) × α) :=
  [((22001, 89450), 12 / 100),
   ((89451, 190750), 22 / 100),
   ((190751, 364200), 24 / 100),
   ((364201, 462500), 32 / 100),
   ((462501, 693750), 35 / 100),
   ((693751, 9999999), 37 / 100)]

/-- `TaxCalculator.capital_gains` (classes.py:253). -/
def capital_gains (α : Type) [LinearOrderedField α] : α := 15 / 100

namespace TaxCalculator

def init : TaxCalculator α :=
  { year_to_date := [], projected_inflation_adjusted_income := [] }

/-- `reset_year()` (classes.py:259-261). -/
def reset_year (_tc : TaxCalculator α) : TaxCalculator α := init

/-- `add_inflation_adjusted_income(ia_income, current_month)`
(classes.py:263-268): note the *assignment* `year_to_date[current_month] =
ia_income`, and the projection `sum(values) / (current_month / 12) - 29200`. -/
def add_inflation_adjusted_income (tc : TaxCalculator α) (ia_income : α)
    (current_month : ℕ) : TaxCalculator α :=
  let ytd := dset tc.year_to_date current_month ia_income
  let sum_income := dsum ytd
  { year_to_date := ytd
    projected_inflation_adjusted_income :=
      dset tc.projected_inflation_adjusted_income current_month
        (sum_income / ((current_month : α) / 12) - 29200) }

/-- The bracket scan inside `get_tax_rate` (classes.py:272-279): first bucket
with `lower <= income <= upper` wins; `ValueError` when none matches. -/
def bracket_scan (income : α) : List ((α × α) × α) → Except PyErr α
  | [] => .error .valueError
  | ((lower, upper), rate) :: rest =>
    if lower ≤ income ∧ income ≤ upper then .ok rate else bracket_scan income rest

/-- `get_tax_rate(current_month)` (classes.py:270-279); indexing the projection
dict with an unrecorded month is a Python `KeyError`. -/
def get_tax_rate (tc : TaxCalculator α) (current_month : ℕ) : Except PyErr α :=
  match dget tc.projected_inflation_adjusted_income current_month with
  | none => .error .keyError
  | some income => bracket_scan income (tax_brackets α)

/-- `get_tax_return(total_taxes_paid)` (classes.py:281-284). -/
def get_tax_return (tc : TaxCalculator α) (total_taxes_paid : α) : Except PyErr α :=
  match tc.get_tax_rate 12 with
  | .error e => .error e
  | .ok tax_rate =>
    match dget tc.projected_inflation_adjusted_income 12 with
    | none => .error .keyError
    | some p => .ok (total_taxes_paid - p * tax_rate)

end TaxCalculator

end Components

/-! ## Investment and Asset ledgers -/

section Ledgers

variable {α : Type} [LinearOrderedField α] [FloorRing α]

/-- The `change_type` column of an `Investment` transaction row. -/
inductive ChangeType where
  | add
  | grow
  | withdraw
deriving DecidableEq, Repr

/-- One row of `Investment.df` (classes.py:367-375). -/
structure TxRow (α : Type) where
  nstocks : α
  stock_cost : α
  total_value : α
  years_from_start : α
  change_type : ChangeType

/-- `class Investment` (classes.py:361-463). -/
structure Investment (α : Type) where
  name : String
  growth_rate : α
  tax_free : Bool
  total : α
  log : List (TxRow α)
  cost_basis : Option α
  stock_cost : α
  nstocks : α

namespace Investment

/-- `Investment.__init__(name, annual_growth_rate, tax_free=False)`
(classes.py:362-378): stores the *monthly* growth factor
`1 + annual_growth_rate / 12`, a unit stock cost and no cost basis. -/
def init (name : String) (annual_growth_rate : α) (tax_free : Bool := false) :
    Investment α :=
  { name := name
    growth_rate := 1 + annual_growth_rate / 12
    tax_free := tax_free
    total := 0
    log := []
    cost_basis := none
    stock_cost := 1
    nstocks := 0 }

/-- `_update_cost_basis(stocks_purchased)` (classes.py:396-402). -/
def update_cost_basis (s : Investment α) (stocks_purchased : α) : α :=
  match s.cost_basis with
  | none => s.stock_cost
  | some cb =>
    (cb * s.nstocks + s.stock_cost * stocks_purchased) / (s.nstocks + stocks_purchased)

/-- `add(amount, years_from_start)` (classes.py:380-394). -/
def add (s : Investment α) (amount years_from_start : α) : Investment α :=
  let stocks_purchased := amount / s.stock_cost
  let cb := s.update_cost_basis stocks_purchased
  let n := s.nstocks + stocks_purchased
  { s with
    cost_basis := some cb
    nstocks := n
    total := n * s.stock_cost
    log := s.log ++ [⟨n, s.stock_cost, n * s.stock_cost, years_from_start, .add⟩] }

/-- The recorded times of the `grow` transactions (the `years_from_start`
column of `self.df[self.df["change_type"] == "grow"]`, classes.py:406). -/
def growTimes (s : Investment α) : List α :=
  (s.log.filter (fun r => r.change_type == ChangeType.grow)).map
    (fun r => r.years_from_start)

/-- The then-branch of `grow` (classes.py:411-422): multiply `stock_cost` by
the monthly factor, recompute `total`, append a `grow` row. -/
def growApply (s : Investment α) (years_from_start : α) : Investment α :=
  let sc := s.stock_cost * s.growth_rate
  { s with
    stock_cost := sc
    total := s.nstocks * sc
    log := s.log ++ [⟨s.nstocks, sc, s.nstocks * sc, years_from_start, .grow⟩] }

/-- `grow(years_from_start)` (classes.py:404-422): apply the monthly factor to
`stock_cost` only if the grow-rows are empty or their max time is `< t`
(`NaN < t` is false in pandas, hence the explicit empty case). -/
def grow (s : Investment α) (years_from_start : α) : Investment α :=
  match listMax s.growTimes with
  | none => s.growApply years_from_start
  | some m => if m < years_from_start then s.growApply years_from_start else s

/-- `withdraw_accounting_for_taxes(amount, years_from_start, gains_rate=0.15)`
(classes.py:424-450). When no contribution was ever made `self.cost_basis` is
`None` and `tax_rate * self.cost_basis` raises `TypeError` (`float * NoneType`,
this happens for the tax-free rate `0` as well). Returns the new ledger and the
withheld tax. -/
def withdraw_accounting_for_taxes (s : Investment α) (amount years_from_start : α)
    (gains_rate : α := 15 / 100) : Except PyErr (Investment α × α) :=
  let tax_rate : α := if s.tax_free then 0 else gains_rate
  match s.cost_basis with
  | none => .error .typeError
  | some cb =>
    let stocks_to_sell := amount / ((1 - tax_rate) * s.stock_cost + tax_rate * cb)
    let n := s.nstocks - stocks_to_sell
    let s' :=
      { s with
        nstocks := n
        total := n * s.stock_cost
        log := s.log ++ [⟨n, s.stock_cost, n * s.stock_cost, years_from_start, .withdraw⟩] }
    .ok (s', if s.tax_free then 0 else stocks_to_sell * (s.stock_cost - cb))

/-- `test_sufficient_funds(amount, gains_rate=0.15)` (classes.py:452-463). -/
def test_sufficient_funds (s : Investment α) (amount : α)
    (gains_rate : α := 15 / 100) : Bool :=
  let tax_rate : α := if s.tax_free then 0 else gains_rate
  match s.cost_basis with
  | none => false
  | some cb =>
    decide (amount ≤ s.nstocks * ((1 - tax_rate) * s.stock_cost + tax_rate * cb))

end Investment

/-- `class Asset` (classes.py:315-358). `log` is `self.df`'s rows
`(Value, years_from_start)`. -/
structure AssetS (α : Type) where
  name : String
  value : α
  growth_rate : α
  dividend_rate : Option α
  profit_dividend_rate : α
  log : List (α × α)

namespace AssetS

/-- Class-level constants (classes.py:317-320). -/
def vacancy_rate : α := 833 / 10000
def insurance : α := 35 / 10000
def taxes : α := 73 / 10000
def maintenance : α := 1 / 100

/-- `Asset.__init__(name, value, growth_rate, years_from_start,
dividend_rate=None)` (classes.py:322-340). With the default
`dividend_rate=None` the body evaluates
`(1 - self.vacancy_rate) * None` (classes.py:335), a Python `TypeError`:
an Asset cannot actually be constructed without a dividend rate. -/
def init (name : String) (value growth_rate years_from_start : α)
    (dividend_rate : Option α := none) : Except PyErr (AssetS α) :=
  match dividend_rate with
  | none => .error .typeError
  | some d =>
    .ok
      { name := name
        value := value
        growth_rate := growth_rate
        dividend_rate := some d
        profit_dividend_rate :=
          (1 - vacancy_rate) * d - (insurance + taxes + maintenance) / 12
        log := [(value, years_from_start)] }

/-- The `years_from_start` column of the asset's dataframe. -/
def growTimes (a : AssetS α) : List α := a.log.map (·.2)

/-- `Asset.grow(years_from_start)` (classes.py:342-353): appreciate only when
`years_from_start >= max(recorded times) + 1`, rounding the new value to
cents. (After construction the dataframe is never empty; the `none` branch
mirrors pandas' `NaN` max, which fails every comparison.) -/
def grow (a : AssetS α) (years_from_start : α) : AssetS α :=
  match listMax a.growTimes with
  | none => a
  | some most_recent_growth =>
    if most_recent_growth + 1 ≤ years_from_start then
      let new_value := round2 (a.value * (1 + a.growth_rate))
      { a with value := new_value, log := a.log ++ [(new_value, years_from_start)] }
    else a

/-- `Asset.pay_dividend()` (classes.py:355-358). -/
def pay_dividend (a : AssetS α) : Except PyErr α :=
  match a.dividend_rate with
  | none => .error .valueError
  | some _ => .ok (round2 (a.profit_dividend_rate * a.value))

end AssetS

end Ledgers

/-! ## PortfolioManager (classes.py:19-189)

This layer lives over `ℝ`: `_manage_income` computes
`self.ia.forward_adjust(150000, years_from_start)` with a *fractional*
exponent, i.e. a real power. A step returns the (possibly partially
updated) state together with `some e` when the month raised exception `e`:
as in Python, mutations made before the raise persist. The pandas
dataframe `self.df` is a pure reporting sink (never read back by the
engine) and is omitted. -/

/-- `sum(asset.pay_dividend() for asset in self.assets)` (classes.py:53):
the first raising asset propagates its exception. -/
def sumDividends {α : Type} [LinearOrderedField α] [FloorRing α] :
    List (AssetS α) → Except PyErr α
  | [] => .ok 0
  | a :: rest =>
    match a.pay_dividend with
    | .error e => .error e
    | .ok d => (sumDividends rest).map (fun x => d + x)

/-- `current_month = int((years_from_start % 1) * 12) + 1` (classes.py:59-60,162-163). -/
noncomputable def currentMonth (t : ℝ) : ℕ := (pyInt (Int.fract t * 12) + 1).toNat

/-- The mutable state of a `PortfolioManager` (classes.py:19-49). -/
structure PMState where
  spendstrat : SpendingStrategy ℝ
  genstrat : GenerosityStrategy ℝ
  salary : Salary ℝ
  ia : InflationAdjuster ℝ
  tax_cal : TaxCalculator ℝ
  taxes_ytd_ia : List (ℕ × ℝ)
  income_ytd : List (ℕ × ℝ)
  retirement_investment : Investment ℝ
  giving_investment : Investment ℝ
  giving_tracker : SpendingTracker ℝ
  assets : List (AssetS ℝ)
  asset_savings : Investment ℝ

namespace PMState

/-- `PortfolioManager.__init__(spendstrat, genstrat, salary)` (classes.py:20-49). -/
noncomputable def init (spendstrat : SpendingStrategy ℝ) (genstrat : GenerosityStrategy ℝ)
    (salary : Salary ℝ) : PMState :=
  { spendstrat := spendstrat
    genstrat := genstrat
    salary := salary
    ia := ⟨4 / 100⟩
    tax_cal := TaxCalculator.init
    taxes_ytd_ia := []
    income_ytd := []
    retirement_investment := Investment.init "Retirement" (96 / 1000) true
    giving_investment := Investment.init "Giving" (96 / 1000)
    giving_tracker := SpendingTracker.init
    assets := []
    asset_savings := Investment.init "Asset Savings" (96 / 1000) }

/-- `init_retirement_savings(amount)` (classes.py:153-155); the dataframe write
is reporting only. -/
noncomputable def init_retirement_savings (s : PMState) (amount : ℝ) : PMState :=
  { s with retirement_investment := s.retirement_investment.add amount 0 }

/-- `init_giving_savings(amount)` (classes.py:157-159). -/
noncomputable def init_giving_savings (s : PMState) (amount : ℝ) : PMState :=
  { s with giving_investment := s.giving_investment.add amount 0 }

/-- `_get_paid(years_from_start)` (classes.py:51-73). -/
noncomputable def getPaid (s : PMState) (t : ℝ) : PMState × Except PyErr ℝ :=
  let salary_paycheck := round2 s.salary.get_paid
  match sumDividends s.assets with
  | .error e => (s, .error e)
  | .ok assets_income =>
    let total_income := salary_paycheck + assets_income
    let n_years := pyInt t
    let ia_income := round2 (s.ia.reverse_adjust total_income n_years)
    let current_month := currentMonth t
    let tc := s.tax_cal.add_inflation_adjusted_income ia_income current_month
    let s := { s with tax_cal := tc }
    match tc.get_tax_rate current_month with
    | .error e => (s, .error e)
    | .ok tax_rate =>
      let s := { s with
        taxes_ytd_ia := dset s.taxes_ytd_ia current_month (ia_income * tax_rate) }
      let ret : Except PyErr ℝ :=
        if current_month = 12 then s.tax_cal.get_tax_return (dsum s.taxes_ytd_ia)
        else .ok 0
      match ret with
      | .error e => (s, .error e)
      | .ok tax_return =>
        let total_income := total_income + tax_return
        let s := { s with income_ytd := dset s.income_ytd current_month ia_income }
        (s, .ok (total_income * (1 - tax_rate)))

/-- The call `Asset(name=…, value=asset_price, growth_rate=0.036,
dividend_rate=0.01)` at classes.py:125-130: `Asset.__init__` has a required
parameter `years_from_start` that this call site does not pass, so Python
raises `TypeError` before the constructor body runs. -/
def assetCallMissingYears {α : Type} (_name : String) (_value _growth_rate : α)
    (_dividend_rate : Option α) : Except PyErr (AssetS α) :=
  .error .typeError

/-- `_purchase_assets(n_assets, asset_price)` (classes.py:120-132):
`for i in range(n_assets)`; each iteration constructs an `Asset` (which raises,
see `assetCallMissingYears`) and — were that to succeed — would append it and
then unconditionally `raise ValueError("Need to remove from investments still")`. -/
def purchaseLoop (asset_price : ℝ) : ℕ → ℕ → PMState → PMState × Option PyErr
  | 0, _, s => (s, none)
  | Nat.succ _, i, s =>
    let current_assets := s.assets.length
    let new_asset_name := "Asset " ++ toString (current_assets + i) ++ "+1"
    match assetCallMissingYears new_asset_name asset_price ((36 : ℝ) / 1000)
        (some (1 / 100)) with
    | .error e => (s, some e)
    | .ok a => ({ s with assets := s.assets ++ [a] }, some .valueError)

def purchase_assets (s : PMState) (n_assets : ℤ) (asset_price : ℝ) :
    PMState × Option PyErr :=
  purchaseLoop asset_price n_assets.toNat 0 s

/-- The five-way split of a paycheck (classes.py:76-82). -/
noncomputable def fiveSplit (s : PMState) (income : ℝ) : ℝ × ℝ × ℝ × ℝ × ℝ :=
  s.spendstrat.base_retirement_spend_invest_give income

/-- The giving-investment drawdown withdrawal amount (classes.py:86-87). -/
noncomputable def withdrawalOf (s : PMState) : ℝ :=
  s.giving_investment.total * s.genstrat.investment_draw_down_rate

/-- `asset_price = self.ia.forward_adjust(150000, years_from_start)`
(classes.py:102). -/
noncomputable def assetPriceAt (s : PMState) (t : ℝ) : ℝ :=
  s.ia.forward_adjustR 150000 t

/-- The first half of the purchase decision (classes.py:101-105): number of
whole units affordable from disposable investment plus the remaining
disposable investment. -/
noncomputable def preDecision (s : PMState) (income t : ℝ) : ℤ × ℝ :=
  let di := (s.fiveSplit income).2.2.2.1
  let ap := s.assetPriceAt t
  if ap ≤ di then
    let n := pyInt (di / ap)
    (n, di - (n : ℝ) * ap)
  else (0, di)

/-- The asset-savings check (classes.py:107). -/
noncomputable def savingsSufficient (s : PMState) (income t : ℝ) : Bool :=
  s.asset_savings.test_sufficient_funds (s.assetPriceAt t - (s.preDecision income t).2)

/-- The final `n_assets` of the month's purchase decision (classes.py:101-112). -/
noncomputable def nAssetsOf (s : PMState) (income t : ℝ) : ℤ :=
  (s.preDecision income t).1 + (if s.savingsSufficient income t then 1 else 0)

/-- Steps `if n_assets == 0 … else …` (classes.py:114-118). -/
noncomputable def finishPurchase (s : PMState) (n : ℤ) (disp_invest t asset_price : ℝ) :
    PMState × Option PyErr :=
  if n = 0 then
    ({ s with asset_savings := s.asset_savings.add disp_invest t }, none)
  else s.purchase_assets n asset_price

/-- The asset-purchase phase of `_manage_income` (classes.py:100-118), run on
the state as already updated by the giving and retirement phases. -/
noncomputable def assetPhase (s1 : PMState) (income t : ℝ) : PMState × Option PyErr :=
  let ap := s1.assetPriceAt t
  let nd := s1.preDecision income t
  if s1.savingsSufficient income t then
    match s1.asset_savings.withdraw_accounting_for_taxes (ap - nd.2) t with
    | .error e => (s1, some e)
    | .ok (asv, _) =>
      ({ s1 with asset_savings := asv } : PMState).finishPurchase (nd.1 + 1) nd.2 t ap
  else
    s1.finishPurchase nd.1 nd.2 t ap

/-- `_manage_income(income, years_from_start)` (classes.py:75-118); the
five-way unpacking at classes.py:76-82 is written with explicit tuple
projections. -/
noncomputable def manageIncome (s : PMState) (income t : ℝ) : PMState × Option PyErr :=
  let retirement_saving := (s.fiveSplit income).2.1
  let disp_give := (s.fiveSplit income).2.2.2.2
  let spend_give := (s.genstrat.straight_invest disp_give).1
  let invest_give := (s.genstrat.straight_invest disp_give).2
  let withdrawal := s.withdrawalOf
  match s.giving_investment.withdraw_accounting_for_taxes withdrawal t with
  | .error e => (s, some e)
  | .ok gires =>
    assetPhase
      { s with
        giving_investment := gires.1.add invest_give t
        giving_tracker := (s.giving_tracker.add spend_give t).add withdrawal t
        retirement_investment := s.retirement_investment.add retirement_saving t }
      income t

/-- `_grow_investments_and_assets(years_from_start, current_month)`
(classes.py:134-142). The month-12 loop body reads the *undefined* name
`assets` (classes.py:142) — a `NameError` on the first iteration, so it only
returns normally when the asset list is empty. -/
noncomputable def growInvestmentsAndAssets (s : PMState) (t : ℝ) (current_month : ℕ) :
    PMState × Option PyErr :=
  let s := { s with
    retirement_investment := s.retirement_investment.grow t
    giving_investment := s.giving_investment.grow t
    asset_savings := s.asset_savings.grow t }
  if current_month = 12 then
    match s.assets with
    | [] => (s, none)
    | _ :: _ => (s, some .nameError)
  else (s, none)

/-- `_close_out_year()` (classes.py:148-151). -/
noncomputable def closeOutYear (s : PMState) : PMState :=
  { s with
    tax_cal := s.tax_cal.reset_year
    taxes_ytd_ia := []
    salary := s.salary.get_raise (105 / 100) }

/-- `simulate_month(years_from_start)` (classes.py:161-175); `_update_df` is a
reporting sink and is omitted. -/
noncomputable def simulateMonth (s : PMState) (t : ℝ) : PMState × Option PyErr :=
  let current_month := currentMonth t
  match s.getPaid t with
  | (s', .error e) => (s', some e)
  | (s', .ok income) =>
    match s'.manageIncome income t with
    | (s'', some e) => (s'', some e)
    | (s'', none) =>
      match s''.growInvestmentsAndAssets t current_month with
      | (s3, some e) => (s3, some e)
      | (s3, none) =>
        if current_month = 12 then (s3.closeOutYear, none) else (s3, none)

/-- A driver loop: one `simulate_month` call per supplied time value, keeping
the state whether or not the month raised. -/
noncomputable def runMonths (ts : List ℝ) (s : PMState) : PMState :=
  ts.foldl (fun s t => (s.simulateMonth t).1) s

end PMState

/-! ## Claim theorems -/

/-- C1, counterexample: with the manager's rate `r = 0.04` (classes.py:29),
`reverse_adjust(forward_adjust(1, 1), 1) = 1 * 1.04 * 0.96 = 0.9984 ≠ 1`:
the inflation round-trip claimed by the spec does not hold on the code. -/
theorem inflation_roundtrip_fails :
    (InflationAdjuster.mk (4 / 100 : ℚ)).reverse_adjust
      ((InflationAdjuster.mk (4 / 100 : ℚ)).forward_adjust 1 1) 1 ≠ 1 := by
  norm_num [InflationAdjuster.reverse_adjust, InflationAdjuster.forward_adjust]

/-- C1, amended: for every rate `r`, amount `x` and number of years `y ≥ 0`,
`reverse_adjust(forward_adjust(x, y), y) = x * (1 - r^2)^y` — the round-trip
returns `x` exactly when `y = 0` (second conjunct), not for all `y ≥ 0`. -/
theorem inflation_roundtrip_amended :
    (∀ (r x : ℚ) (y : ℕ),
        (InflationAdjuster.mk r).reverse_adjust
          ((InflationAdjuster.mk r).forward_adjust x y) y = x * (1 - r ^ 2) ^ y) ∧
    (∀ (r x : ℚ),
        (InflationAdjuster.mk r).reverse_adjust
          ((InflationAdjuster.mk r).forward_adjust x 0) 0 = x) := by
  constructor
  · intro r x y
    simp only [InflationAdjuster.reverse_adjust, InflationAdjuster.forward_adjust,
      zpow_natCast]
    rw [mul_assoc, ← mul_pow]
    have h : (1 + r) * (1 - r) = 1 - r ^ 2 := by ring
    rw [h]
  · intro r x
    simp [InflationAdjuster.reverse_adjust, InflationAdjuster.forward_adjust]

/-- C10: the five amounts returned by `base_retirement_spend_invest_give`
sum exactly to the paycheck, for every choice of the four constructor
fractions, because the disposable fraction is `1 - base - retirement` and the
derived invest sub-fraction is `1 - spend - give`. -/
theorem spending_strategy_splits_sum_to_paycheck
    (base_spending retirement_saving disp_spend disp_give p : ℚ) :
    ((SpendingStrategy.init base_spending retirement_saving disp_spend
        disp_give).base_retirement_spend_invest_give p).1 +
    ((SpendingStrategy.init base_spending retirement_saving disp_spend
        disp_give).base_retirement_spend_invest_give p).2.1 +
    ((SpendingStrategy.init base_spending retirement_saving disp_spend
        disp_give).base_retirement_spend_invest_give p).2.2.1 +
    ((SpendingStrategy.init base_spending retirement_saving disp_spend
        disp_give).base_retirement_spend_invest_give p).2.2.2.1 +
    ((SpendingStrategy.init base_spending retirement_saving disp_spend
        disp_give).base_retirement_spend_invest_give p).2.2.2.2 = p := by
  simp only [SpendingStrategy.init, SpendingStrategy.base_retirement_spend_invest_give]
  ring

/-- C5, counterexample: `add_inflation_adjusted_income` *assigns*
`year_to_date[month] = ia_income` (classes.py:264) instead of accumulating:
after recording 100 and then 50 under month 1, the stored year-to-date value
is 50, not 150, and the projection is `50*12 - 29200 = -28600`, not
`150*12 - 29200`. -/
theorem record_income_overwrites :
    dget ((TaxCalculator.init.add_inflation_adjusted_income (100 : ℚ)
        1).add_inflation_adjusted_income 50 1).year_to_date 1 = some 50 ∧
    dget ((TaxCalculator.init.add_inflation_adjusted_income (100 : ℚ)
        1).add_inflation_adjusted_income 50 1).projected_inflation_adjusted_income 1
      = some (-28600) ∧
    dget ((TaxCalculator.init.add_inflation_adjusted_income (100 : ℚ)
        1).add_inflation_adjusted_income 50 1).year_to_date 1 ≠ some (100 + 50) := by
  refine ⟨rfl, ?_, ?_⟩
  · show some ((50 + 0) / ((1 : ℚ) / 12) - 29200) = some (-28600)
    norm_num
  · show some (50 : ℚ) ≠ some (100 + 50)
    simp

/-- C5, amended: each `add_inflation_adjusted_income(real_income, month)` call
*stores* `real_income` under the month key (overwriting any earlier value for
that key: two calls for the same key keep only the second), and afterwards the
projection for that month is `sum(year_to_date.values()) / (month/12) - 29200`. -/
theorem record_income_stores_and_projects :
    (∀ (tc : TaxCalculator ℚ) (inc : ℚ) (m : ℕ),
        dget (tc.add_inflation_adjusted_income inc m).year_to_date m = some inc) ∧
    (∀ (tc : TaxCalculator ℚ) (inc : ℚ) (m : ℕ),
        dget (tc.add_inflation_adjusted_income inc
            m).projected_inflation_adjusted_income m
          = some (dsum (dset tc.year_to_date m inc) / ((m : ℚ) / 12) - 29200)) ∧
    (∀ (tc : TaxCalculator ℚ) (a b : ℚ) (m : ℕ),
        dget ((tc.add_inflation_adjusted_income a
            m).add_inflation_adjusted_income b m).year_to_date m = some b) := by
  refine ⟨fun tc inc m => ?_, fun tc inc m => ?_, fun tc a b m => ?_⟩
  · exact dget_dset _ _ _
  · exact dget_dset _ _ _
  · exact dget_dset _ _ _

/-- C8: on a tax-free investment with an established cost basis, an affordable
`withdraw_accounting_for_taxes` succeeds, returns exactly 0 withheld tax, and
liquidates `amount / ((1-0)*stock_cost + 0*cost_basis) = amount / stock_cost`
shares. -/
theorem tax_free_withdraw_zero_tax (s : Investment ℚ) (amount t cb : ℚ)
    (hfree : s.tax_free = true) (hcb : s.cost_basis = some cb)
    (_haff : s.test_sufficient_funds amount = true) :
    ∃ s' : Investment ℚ,
      s.withdraw_accounting_for_taxes amount t = .ok (s', 0) ∧
      s'.nstocks = s.nstocks - amount / s.stock_cost := by
  unfold Investment.withdraw_accounting_for_taxes
  rw [hfree, hcb]
  norm_num

/-- C8 witness: a tax-free retirement investment holding one contribution of
100 at price 1 affords a withdrawal of 50; it succeeds with 0 withheld tax. -/
theorem tax_free_withdraw_zero_tax_witness :
    ((Investment.init "Retirement" (96 / 1000) true : Investment ℚ).add
        100 0).tax_free = true ∧
    ((Investment.init "Retirement" (96 / 1000) true : Investment ℚ).add
        100 0).cost_basis = some 1 ∧
    ((Investment.init "Retirement" (96 / 1000) true : Investment ℚ).add
        100 0).test_sufficient_funds 50 = true ∧
    ∃ s' : Investment ℚ,
      ((Investment.init "Retirement" (96 / 1000) true : Investment ℚ).add
          100 0).withdraw_accounting_for_taxes 50 (1 / 12) = .ok (s', 0) ∧
      s'.nstocks =
        ((Investment.init "Retirement" (96 / 1000) true : Investment ℚ).add
            100 0).nstocks -
          50 / ((Investment.init "Retirement" (96 / 1000) true : Investment ℚ).add
            100 0).stock_cost := by
  have h1 : ((Investment.init "Retirement" (96 / 1000) true : Investment ℚ).add
      100 0).tax_free = true := rfl
  have h2 : ((Investment.init "Retirement" (96 / 1000) true : Investment ℚ).add
      100 0).cost_basis = some 1 := rfl
  have h3 : ((Investment.init "Retirement" (96 / 1000) true : Investment ℚ).add
      100 0).test_sufficient_funds 50 = true := by
    simp only [Investment.test_sufficient_funds, Investment.add, Investment.init]
    norm_num
  exact ⟨h1, h2, h3, tax_free_withdraw_zero_tax _ 50 (1 / 12) 1 h1 h2 h3⟩

/-- C9 (code bug): `Asset.__init__` unconditionally computes
`(1 - vacancy_rate) * dividend_rate` (classes.py:335), so constructing an
Asset with the dividend rate omitted (`dividend_rate=None`, the declared
default) raises `TypeError` — the missing-rate guard in `pay_dividend`
(classes.py:356) is unreachable. With a configured rate, construction
succeeds and `pay_dividend` returns the net dividend rounded to cents. -/
theorem asset_without_dividend_rate_unconstructible :
    (AssetS.init "Asset 1" (150000 : ℚ) (36 / 1000) 0 = .error .typeError) ∧
    (∃ a : AssetS ℚ,
      AssetS.init "Asset 1" (150000 : ℚ) (36 / 1000) 0 (some (1 / 100)) = .ok a ∧
      a.pay_dividend = .ok (round2 (a.profit_dividend_rate * a.value))) := by
  exact ⟨rfl, ⟨_, rfl, rfl⟩⟩

/-- Case analysis of `Investment.grow` (classes.py:404-422): either the guard
passes — every recorded grow time is `< t`, the ledger gains a grow row at `t`
and `stock_cost` is multiplied by the monthly factor — or the state is
returned unchanged. -/
theorem Investment.grow_cases (s : Investment ℚ) (t : ℚ) :
    ((s.grow t).growTimes = s.growTimes ++ [t] ∧
     (s.grow t).stock_cost = s.stock_cost * s.growth_rate ∧
     (s.grow t).nstocks = s.nstocks ∧
     (s.grow t).cost_basis = s.cost_basis ∧
     (s.grow t).growth_rate = s.growth_rate ∧
     (s.grow t).tax_free = s.tax_free ∧
     (∀ u ∈ s.growTimes, u < t)) ∨
    (s.grow t = s ∧ ∃ u ∈ s.growTimes, t ≤ u) := by
  have happly_gt : (s.growApply t).growTimes = s.growTimes ++ [t] := by
    simp [Investment.growTimes, Investment.growApply, List.filter_append]
  unfold Investment.grow
  cases hm : listMax s.growTimes with
  | none =>
    left
    have hempty : s.growTimes = [] := (listMax_nil_iff _).mp hm
    dsimp only
    refine ⟨happly_gt, rfl, rfl, rfl, rfl, rfl, ?_⟩
    intro u hu
    rw [hempty] at hu
    simp at hu
  | some m =>
    by_cases hmt : m < t
    · left
      dsimp only
      rw [if_pos hmt]
      exact ⟨happly_gt, rfl, rfl, rfl, rfl, rfl, (listMax_lt_iff hm).mp hmt⟩
    · right
      dsimp only
      rw [if_neg hmt]
      exact ⟨rfl, m, listMax_mem hm, not_lt.mp hmt⟩

/-- C4: `Investment.grow` applies the monthly compounding factor exactly when
no recorded `grow` transaction has a time `≥ t` (first two conjuncts,
classes.py:404-410), and a second call with the same period marker `t` is a
no-op, leaving the whole state — in particular `stock_cost` (share price),
`nstocks` (share count) and `total` — unchanged (third conjunct). -/
theorem investment_grow_idempotent_per_period :
    (∀ (s : Investment ℚ) (t : ℚ), (∀ u ∈ s.growTimes, u < t) →
        (s.grow t).stock_cost = s.stock_cost * s.growth_rate) ∧
    (∀ (s : Investment ℚ) (t : ℚ), (∃ u ∈ s.growTimes, t ≤ u) →
        s.grow t = s) ∧
    (∀ (s : Investment ℚ) (t : ℚ), (s.grow t).grow t = s.grow t) := by
  have hskip : ∀ (s : Investment ℚ) (t : ℚ), (∃ u ∈ s.growTimes, t ≤ u) →
      s.grow t = s := by
    intro s t ⟨u, hu, htu⟩
    cases hm : listMax s.growTimes with
    | none =>
      rw [(listMax_nil_iff _).mp hm] at hu
      simp at hu
    | some m =>
      have hnot : ¬ m < t := not_lt.mpr (le_trans htu (le_listMax hm u hu))
      unfold Investment.grow
      rw [hm]
      dsimp only
      rw [if_neg hnot]
  refine ⟨?_, hskip, ?_⟩
  · intro s t h
    rcases Investment.grow_cases s t with ⟨_, hsc, _⟩ | ⟨_, u, hu, htu⟩
    · exact hsc
    · exact absurd (h u hu) (not_lt.mpr htu)
  · intro s t
    rcases Investment.grow_cases s t with ⟨hgt, _⟩ | ⟨heq, _⟩
    · apply hskip
      rw [hgt]
      exact ⟨t, by simp, le_refl t⟩
    · rw [heq]
      exact heq

/-- C4 witness: on a fresh investment (no grow rows) growing at time 1 applies
the factor once; the state after that growth has a grow row at time `1 ≥ 1`,
so the second call is skipped; and the composite double-call equation. -/
theorem investment_grow_idempotent_per_period_witness :
    (∀ u ∈ (Investment.init "Retirement" (96 / 1000) true : Investment ℚ).growTimes,
        u < 1) ∧
    ((Investment.init "Retirement" (96 / 1000) true : Investment ℚ).grow 1).stock_cost
      = (Investment.init "Retirement" (96 / 1000) true : Investment ℚ).stock_cost *
        (Investment.init "Retirement" (96 / 1000) true : Investment ℚ).growth_rate ∧
    (∃ u ∈ ((Investment.init "Retirement" (96 / 1000) true : Investment ℚ).grow
        1).growTimes, (1 : ℚ) ≤ u) ∧
    (((Investment.init "Retirement" (96 / 1000) true : Investment ℚ).grow 1).grow 1
      = (Investment.init "Retirement" (96 / 1000) true : Investment ℚ).grow 1) := by
  have hfresh : ∀ u ∈ (Investment.init "Retirement" (96 / 1000) true :
      Investment ℚ).growTimes, u < 1 := by
    intro u hu
    simp [Investment.init, Investment.growTimes] at hu
  have hgrown : ∃ u ∈ ((Investment.init "Retirement" (96 / 1000) true :
      Investment ℚ).grow 1).growTimes, (1 : ℚ) ≤ u := by
    have hgt : ((Investment.init "Retirement" (96 / 1000) true :
        Investment ℚ).grow 1).growTimes = [1] := rfl
    exact ⟨1, by rw [hgt]; simp, le_refl 1⟩
  exact ⟨hfresh,
    investment_grow_idempotent_per_period.1 _ 1 hfresh,
    hgrown,
    investment_grow_idempotent_per_period.2.2 _ 1⟩

/-- If the most recent recorded growth time `M` of an Asset satisfies
`¬ (M + 1 ≤ t)`, `grow t` is skipped entirely (classes.py:344). -/
theorem AssetS.grow_skip (A : AssetS ℚ) (t M : ℚ)
    (hm : listMax A.growTimes = some M) (h : ¬ M + 1 ≤ t) : A.grow t = A := by
  unfold AssetS.grow
  rw [hm]
  dsimp only
  rw [if_neg h]

/-- C7: with `M` the most recent recorded growth time of an Asset
(classes.py:343), `grow(t')` with `t' < M + 1` (within the same year) leaves
the state — in particular `value` — unchanged; `grow(t)` with `t ≥ M + 1`
multiplies `value` by `(1 + annual growth rate)` exactly once, rounded to
cents: afterwards the most recent recorded growth time is `t`, and an
immediate second `grow(t)` is a no-op. -/
theorem asset_grow_once_per_year (A : AssetS ℚ) (t' t M : ℚ)
    (hm : listMax A.growTimes = some M) :
    (t' < M + 1 → A.grow t' = A) ∧
    (M + 1 ≤ t →
      (A.grow t).value = round2 (A.value * (1 + A.growth_rate)) ∧
      listMax (A.grow t).growTimes = some t ∧
      (A.grow t).grow t = A.grow t) := by
  constructor
  · intro hlt
    exact AssetS.grow_skip A t' M hm (not_le.mpr hlt)
  · intro hge
    have happ : A.grow t =
        { A with
          value := round2 (A.value * (1 + A.growth_rate))
          log := A.log ++ [(round2 (A.value * (1 + A.growth_rate)), t)] } := by
      unfold AssetS.grow
      rw [hm]
      dsimp only
      rw [if_pos hge]
    have hgt : (A.grow t).growTimes = A.growTimes ++ [t] := by
      rw [happ]
      simp [AssetS.growTimes]
    have hmax2 : listMax (A.grow t).growTimes = some t := by
      rw [hgt]
      refine listMax_append_big (fun x hx => ?_)
      have h1 : x ≤ M := le_listMax hm x hx
      linarith
    refine ⟨by rw [happ], hmax2, ?_⟩
    exact AssetS.grow_skip (A.grow t) t t hmax2 (by linarith)

/-- C7 witness: an asset worth 100 with annual growth rate 0.036, last grown
at time 0: growing at time 1/2 (same year) changes nothing; growing at time 1
yields `round2(100 * 1.036) = 103.6`. -/
theorem asset_grow_once_per_year_witness :
    listMax (AssetS.mk "A" (100 : ℚ) (36 / 1000) (some (1 / 100)) (1 / 200)
        [(100, 0)]).growTimes = some 0 ∧
    ((1 : ℚ) / 2 < 0 + 1) ∧
    (AssetS.mk "A" (100 : ℚ) (36 / 1000) (some (1 / 100)) (1 / 200)
        [(100, 0)]).grow (1 / 2) =
      AssetS.mk "A" (100 : ℚ) (36 / 1000) (some (1 / 100)) (1 / 200) [(100, 0)] ∧
    ((0 : ℚ) + 1 ≤ 1) ∧
    ((AssetS.mk "A" (100 : ℚ) (36 / 1000) (some (1 / 100)) (1 / 200)
        [(100, 0)]).grow 1).value =
      round2 ((AssetS.mk "A" (100 : ℚ) (36 / 1000) (some (1 / 100)) (1 / 200)
        [(100, 0)]).value *
        (1 + (AssetS.mk "A" (100 : ℚ) (36 / 1000) (some (1 / 100)) (1 / 200)
        [(100, 0)]).growth_rate)) := by
  have hm : listMax (AssetS.mk "A" (100 : ℚ) (36 / 1000) (some (1 / 100)) (1 / 200)
      [(100, 0)]).growTimes = some 0 := rfl
  have h1 : (1 : ℚ) / 2 < 0 + 1 := by norm_num
  have h2 : (0 : ℚ) + 1 ≤ 1 := by norm_num
  exact ⟨hm, h1,
    (asset_grow_once_per_year _ (1 / 2) 1 0 hm).1 h1, h2,
    ((asset_grow_once_per_year _ (1 / 2) 1 0 hm).2 h2).1⟩

/-- C3: for a month `m` with a recorded projection `p`, `get_tax_rate` returns
`.ok r` iff some bracket `[lo, hi]` of the fixed table contains `p` and has
rate `r`; it raises the invalid-income `ValueError` iff no bracket contains
`p`; and `p = 89450` (the upper bound of the first bracket) yields rate 0.12. -/
theorem tax_rate_bracket_lookup (tc : TaxCalculator ℚ) (m : ℕ) (p : ℚ)
    (hp : dget tc.projected_inflation_adjusted_income m = some p) :
    (∀ r : ℚ, tc.get_tax_rate m = .ok r ↔
        ∃ lo hi : ℚ, ((lo, hi), r) ∈ tax_brackets ℚ ∧ lo ≤ p ∧ p ≤ hi) ∧
    (tc.get_tax_rate m = .error .valueError ↔
        ∀ lo hi r : ℚ, ((lo, hi), r) ∈ tax_brackets ℚ → ¬(lo ≤ p ∧ p ≤ hi)) ∧
    (p = 89450 → tc.get_tax_rate m = .ok (12 / 100)) := by
  have hscan : tc.get_tax_rate m = TaxCalculator.bracket_scan p (tax_brackets ℚ) := by
    unfold TaxCalculator.get_tax_rate
    rw [hp]
  have hfwd : ∀ r : ℚ, TaxCalculator.bracket_scan p (tax_brackets ℚ) = .ok r →
      ∃ lo hi : ℚ, ((lo, hi), r) ∈ tax_brackets ℚ ∧ lo ≤ p ∧ p ≤ hi := by
    intro r hok
    simp only [tax_brackets, TaxCalculator.bracket_scan] at hok
    split_ifs at hok with h1 h2 h3 h4 h5 h6 <;>
      simp only [Except.ok.injEq] at hok
    · exact ⟨22001, 89450, by rw [← hok]; simp [tax_brackets], h1.1, h1.2⟩
    · exact ⟨89451, 190750, by rw [← hok]; simp [tax_brackets], h2.1, h2.2⟩
    · exact ⟨190751, 364200, by rw [← hok]; simp [tax_brackets], h3.1, h3.2⟩
    · exact ⟨364201, 462500, by rw [← hok]; simp [tax_brackets], h4.1, h4.2⟩
    · exact ⟨462501, 693750, by rw [← hok]; simp [tax_brackets], h5.1, h5.2⟩
    · exact ⟨693751, 9999999, by rw [← hok]; simp [tax_brackets], h6.1, h6.2⟩
  have hbwd : ∀ lo hi r : ℚ, ((lo, hi), r) ∈ tax_brackets ℚ → lo ≤ p → p ≤ hi →
      TaxCalculator.bracket_scan p (tax_brackets ℚ) = .ok r := by
    intro lo hi r hmem hlo hhi
    simp only [tax_brackets, List.mem_cons, List.not_mem_nil, or_false,
      Prod.mk.injEq] at hmem
    rcases hmem with ⟨⟨hl, hh⟩, hr⟩ | ⟨⟨hl, hh⟩, hr⟩ | ⟨⟨hl, hh⟩, hr⟩ |
        ⟨⟨hl, hh⟩, hr⟩ | ⟨⟨hl, hh⟩, hr⟩ | ⟨⟨hl, hh⟩, hr⟩ <;>
      subst hl <;> subst hh <;> subst hr <;>
      simp only [tax_brackets, TaxCalculator.bracket_scan]
    · rw [if_pos ⟨hlo, hhi⟩]
    · rw [if_neg (by rintro ⟨-, hb⟩; linarith), if_pos ⟨hlo, hhi⟩]
    · rw [if_neg (by rintro ⟨-, hb⟩; linarith),
        if_neg (by rintro ⟨-, hb⟩; linarith), if_pos ⟨hlo, hhi⟩]
    · rw [if_neg (by rintro ⟨-, hb⟩; linarith),
        if_neg (by rintro ⟨-, hb⟩; linarith),
        if_neg (by rintro ⟨-, hb⟩; linarith), if_pos ⟨hlo, hhi⟩]
    · rw [if_neg (by rintro ⟨-, hb⟩; linarith),
        if_neg (by rintro ⟨-, hb⟩; linarith),
        if_neg (by rintro ⟨-, hb⟩; linarith),
        if_neg (by rintro ⟨-, hb⟩; linarith), if_pos ⟨hlo, hhi⟩]
    · rw [if_neg (by rintro ⟨-, hb⟩; linarith),
        if_neg (by rintro ⟨-, hb⟩; linarith),
        if_neg (by rintro ⟨-, hb⟩; linarith),
        if_neg (by rintro ⟨-, hb⟩; linarith),
        if_neg (by rintro ⟨-, hb⟩; linarith), if_pos ⟨hlo, hhi⟩]
  have herr : (∀ lo hi r : ℚ, ((lo, hi), r) ∈ tax_brackets ℚ → ¬(lo ≤ p ∧ p ≤ hi)) →
      TaxCalculator.bracket_scan p (tax_brackets ℚ) = .error .valueError := by
    intro hall
    simp only [tax_brackets, TaxCalculator.bracket_scan]
    rw [if_neg (hall 22001 89450 (12 / 100) (by simp [tax_brackets])),
      if_neg (hall 89451 190750 (22 / 100) (by simp [tax_brackets])),
      if_neg (hall 190751 364200 (24 / 100) (by simp [tax_brackets])),
      if_neg (hall 364201 462500 (32 / 100) (by simp [tax_brackets])),
      if_neg (hall 462501 693750 (35 / 100) (by simp [tax_brackets])),
      if_neg (hall 693751 9999999 (37 / 100) (by simp [tax_brackets]))]
  refine ⟨?_, ⟨?_, ?_⟩, ?_⟩
  · intro r
    constructor
    · intro hok
      exact hfwd r (hscan ▸ hok)
    · rintro ⟨lo, hi, hmem, hlo, hhi⟩
      rw [hscan]
      exact hbwd lo hi r hmem hlo hhi
  · intro heq lo hi r hmem ⟨hlo, hhi⟩
    rw [hscan, hbwd lo hi r hmem hlo hhi] at heq
    simp at heq
  · intro hall
    rw [hscan]
    exact herr hall
  · intro h89
    subst h89
    rw [hscan]
    exact hbwd 22001 89450 (12 / 100) (by simp [tax_brackets]) (by norm_num)
      (by norm_num)

/-- C3 witness: a calculator whose recorded month-12 projection is exactly
89450 returns rate 0.12. -/
theorem tax_rate_bracket_lookup_witness :
    dget (TaxCalculator.mk ([] : List (ℕ × ℚ))
        [(12, (89450 : ℚ))]).projected_inflation_adjusted_income 12
      = some 89450 ∧
    (TaxCalculator.mk ([] : List (ℕ × ℚ)) [(12, (89450 : ℚ))]).get_tax_rate 12
      = .ok (12 / 100) := by
  have hp : dget (TaxCalculator.mk ([] : List (ℕ × ℚ))
      [(12, (89450 : ℚ))]).projected_inflation_adjusted_income 12
      = some 89450 := rfl
  exact ⟨hp, (tax_rate_bracket_lookup _ 12 89450 hp).2.2 rfl⟩

/-- Field equations of `Investment.add` (classes.py:380-394): the cost basis
becomes the updated weighted average, the share count grows by
`amount / stock_cost`, and the share price and growth factor are unchanged. -/
theorem Investment.add_fields (s : Investment ℚ) (amount t : ℚ) :
    (s.add amount t).cost_basis = some (s.update_cost_basis (amount / s.stock_cost)) ∧
    (s.add amount t).nstocks = s.nstocks + amount / s.stock_cost ∧
    (s.add amount t).stock_cost = s.stock_cost ∧
    (s.add amount t).growth_rate = s.growth_rate :=
  ⟨rfl, rfl, rfl, rfl⟩

theorem Investment.update_cost_basis_none (s : Investment ℚ) (sp : ℚ)
    (h : s.cost_basis = none) : s.update_cost_basis sp = s.stock_cost := by
  unfold Investment.update_cost_basis
  rw [h]

theorem Investment.update_cost_basis_some (s : Investment ℚ) (sp cb : ℚ)
    (h : s.cost_basis = some cb) :
    s.update_cost_basis sp = (cb * s.nstocks + s.stock_cost * sp) / (s.nstocks + sp) := by
  unfold Investment.update_cost_basis
  rw [h]

/-- A sequence of `grow` calls (classes.py:404-422) at arbitrary times. -/
def applyGrows (ts : List ℚ) (s : Investment ℚ) : Investment ℚ :=
  ts.foldl (fun acc t => acc.grow t) s

/-- `grow` never changes the share count, cost basis or growth factor, and
keeps the share price positive when the growth factor is positive. -/
theorem applyGrows_spec (ts : List ℚ) : ∀ s : Investment ℚ,
    (applyGrows ts s).nstocks = s.nstocks ∧
    (applyGrows ts s).cost_basis = s.cost_basis ∧
    (applyGrows ts s).growth_rate = s.growth_rate ∧
    (0 < s.stock_cost → 0 < s.growth_rate → 0 < (applyGrows ts s).stock_cost) := by
  induction ts with
  | nil => exact fun s => ⟨rfl, rfl, rfl, fun h _ => h⟩
  | cons t rest ih =>
    intro s
    have hstep :
        (s.grow t).nstocks = s.nstocks ∧ (s.grow t).cost_basis = s.cost_basis ∧
        (s.grow t).growth_rate = s.growth_rate ∧
        (0 < s.stock_cost → 0 < s.growth_rate → 0 < (s.grow t).stock_cost) := by
      rcases Investment.grow_cases s t with ⟨_, hsc, hn, hcb, hgr, _, _⟩ | ⟨heq, _⟩
      · exact ⟨hn, hcb, hgr, fun h1 h2 => by rw [hsc]; exact mul_pos h1 h2⟩
      · rw [heq]
        exact ⟨rfl, rfl, rfl, fun h _ => h⟩
    have hrest := ih (s.grow t)
    have happ : applyGrows (t :: rest) s = applyGrows rest (s.grow t) := rfl
    rw [happ]
    refine ⟨hrest.1.trans hstep.1, hrest.2.1.trans hstep.2.1,
      hrest.2.2.1.trans hstep.2.2.1, fun h1 h2 => ?_⟩
    exact hrest.2.2.2 (hstep.2.2.2 h1 h2) (hstep.2.2.1 ▸ h2)

/-- C6: starting from a fresh Investment (no contributions yet), contributing
`a` at share price `p1`, then (after arbitrary grow steps, so the price may
change to `p2`) contributing `b`, yields the share-weighted average cost basis
`(p1·(a/p1) + p2·(b/p2)) / (a/p1 + b/p2)`; and when no grow step intervenes
(both prices equal), the two contributions commute. -/
theorem cost_basis_weighted_average (s0 : Investment ℚ) (a b ta tb : ℚ)
    (ts0 ts1 : List ℚ)
    (hcb : s0.cost_basis = none) (hn : s0.nstocks = 0)
    (hsc : 0 < s0.stock_cost) (hgr : 0 < s0.growth_rate)
    (ha : 0 < a) (hb : 0 < b) :
    ((applyGrows ts1 ((applyGrows ts0 s0).add a ta)).add b tb).cost_basis =
      some (((applyGrows ts0 s0).stock_cost *
              (a / (applyGrows ts0 s0).stock_cost) +
            (applyGrows ts1 ((applyGrows ts0 s0).add a ta)).stock_cost *
              (b / (applyGrows ts1 ((applyGrows ts0 s0).add a ta)).stock_cost)) /
          (a / (applyGrows ts0 s0).stock_cost +
            b / (applyGrows ts1 ((applyGrows ts0 s0).add a ta)).stock_cost)) ∧
    ((s0.add a ta).add b tb).cost_basis = ((s0.add b tb).add a ta).cost_basis := by
  obtain ⟨hAn, hAcb, hAgr, hApos⟩ := applyGrows_spec ts0 s0
  rw [hcb] at hAcb
  rw [hn] at hAn
  have hp1 : 0 < (applyGrows ts0 s0).stock_cost := hApos hsc hgr
  obtain ⟨hadd_cb, hadd_n, hadd_sc, hadd_gr⟩ :=
    Investment.add_fields (applyGrows ts0 s0) a ta
  rw [Investment.update_cost_basis_none _ _ hAcb] at hadd_cb
  obtain ⟨hBn, hBcb, hBgr, hBpos⟩ := applyGrows_spec ts1 ((applyGrows ts0 s0).add a ta)
  rw [hadd_cb] at hBcb
  rw [hadd_n, hAn, zero_add] at hBn
  have hp2 : 0 < (applyGrows ts1 ((applyGrows ts0 s0).add a ta)).stock_cost := by
    refine hBpos ?_ ?_
    · rw [hadd_sc]; exact hp1
    · rw [hadd_gr, hAgr]; exact hgr
  constructor
  · obtain ⟨hf_cb, _, _, _⟩ :=
      Investment.add_fields (applyGrows ts1 ((applyGrows ts0 s0).add a ta)) b tb
    rw [Investment.update_cost_basis_some _ _ _ hBcb, hBn] at hf_cb
    rw [hf_cb]
  · obtain ⟨h1cb, h1n, h1sc, _⟩ := Investment.add_fields s0 a ta
    obtain ⟨h2cb, h2n, h2sc, _⟩ := Investment.add_fields s0 b tb
    obtain ⟨h12cb, _, _, _⟩ := Investment.add_fields (s0.add a ta) b tb
    obtain ⟨h21cb, _, _, _⟩ := Investment.add_fields (s0.add b tb) a ta
    rw [Investment.update_cost_basis_none _ _ hcb] at h1cb h2cb
    rw [Investment.update_cost_basis_some _ _ _ h1cb, h1n, h1sc, hn, zero_add]
      at h12cb
    rw [Investment.update_cost_basis_some _ _ _ h2cb, h2n, h2sc, hn, zero_add]
      at h21cb
    rw [h12cb, h21cb]
    have hsc0 : s0.stock_cost ≠ 0 := ne_of_gt hsc
    congr 1
    field_simp

/-- C6 witness: a fresh investment with annual rate 12 (monthly factor 2),
contributing 2 at price 1, growing once (price 2), then contributing 2. -/
theorem cost_basis_weighted_average_witness :
    (Investment.init "X" (12 : ℚ)).cost_basis = none ∧
    (Investment.init "X" (12 : ℚ)).nstocks = 0 ∧
    (0 : ℚ) < (Investment.init "X" (12 : ℚ)).stock_cost ∧
    (0 : ℚ) < (Investment.init "X" (12 : ℚ)).growth_rate ∧
    ((applyGrows [1 / 2]
        ((applyGrows [] (Investment.init "X" (12 : ℚ))).add 2 0)).add 2 1).cost_basis =
      some (((applyGrows [] (Investment.init "X" (12 : ℚ))).stock_cost *
              (2 / (applyGrows [] (Investment.init "X" (12 : ℚ))).stock_cost) +
            (applyGrows [1 / 2]
              ((applyGrows [] (Investment.init "X" (12 : ℚ))).add 2 0)).stock_cost *
              (2 / (applyGrows [1 / 2]
                ((applyGrows [] (Investment.init "X" (12 : ℚ))).add 2 0)).stock_cost)) /
          (2 / (applyGrows [] (Investment.init "X" (12 : ℚ))).stock_cost +
            2 / (applyGrows [1 / 2]
              ((applyGrows [] (Investment.init "X" (12 : ℚ))).add 2 0)).stock_cost)) := by
  have h1 : (Investment.init "X" (12 : ℚ)).cost_basis = none := rfl
  have h2 : (Investment.init "X" (12 : ℚ)).nstocks = 0 := rfl
  have h3 : (0 : ℚ) < (Investment.init "X" (12 : ℚ)).stock_cost := by
    norm_num [Investment.init]
  have h4 : (0 : ℚ) < (Investment.init "X" (12 : ℚ)).growth_rate := by
    norm_num [Investment.init]
  exact ⟨h1, h2, h3, h4,
    (cost_basis_weighted_average (Investment.init "X" 12) 2 2 0 1 [] [1 / 2]
      h1 h2 h3 h4 (by norm_num) (by norm_num)).1⟩

/-- With an established cost basis, `withdraw_accounting_for_taxes` does not
raise. -/
theorem Investment.withdraw_ok_of_some {α : Type} [LinearOrderedField α]
    [FloorRing α] (s : Investment α) (amount t g cb : α)
    (h : s.cost_basis = some cb) :
    ∃ (s' : Investment α) (tax : α),
      s.withdraw_accounting_for_taxes amount t g = .ok (s', tax) := by
  unfold Investment.withdraw_accounting_for_taxes
  rw [h]
  exact ⟨_, _, rfl⟩

/-- `test_sufficient_funds` only returns true when a cost basis exists
(classes.py:458-459). -/
theorem Investment.test_sufficient_funds_some {α : Type} [LinearOrderedField α]
    [FloorRing α] (s : Investment α) (amount g : α)
    (h : s.test_sufficient_funds amount g = true) :
    ∃ cb : α, s.cost_basis = some cb := by
  unfold Investment.test_sufficient_funds at h
  cases hc : s.cost_basis with
  | none =>
    rw [hc] at h
    simp at h
  | some cb => exact ⟨cb, rfl⟩

/-- The first loop iteration of `_purchase_assets` raises `TypeError` while
constructing the `Asset`, before anything is appended (classes.py:121-131). -/
theorem PMState.purchaseLoop_succ (ap : ℝ) (k i : ℕ) (s : PMState) :
    PMState.purchaseLoop ap (k + 1) i s = (s, some PyErr.typeError) := rfl

/-- Whenever at least one unit is to be bought, the purchase step raises
`TypeError` and leaves the state untouched. -/
theorem PMState.finishPurchase_spec (s : PMState) (n : ℤ) (di t ap : ℝ)
    (hn : 1 ≤ n) : s.finishPurchase n di t ap = (s, some PyErr.typeError) := by
  unfold PMState.finishPurchase
  rw [if_neg (by omega : ¬ n = 0)]
  unfold PMState.purchase_assets
  obtain ⟨k, hk⟩ : ∃ k, n.toNat = k + 1 := ⟨n.toNat - 1, by omega⟩
  rw [hk]
  exact PMState.purchaseLoop_succ ap k 0 s

/-- Behaviour of the asset-purchase phase when the decision selects `≥ 1`
unit: it raises `TypeError`; the asset list, giving ledgers and retirement
ledger are returned as given; the asset-savings fund reflects exactly the
(possibly absent) savings withdrawal. -/
theorem PMState.assetPhase_spec (s1 : PMState) (income t : ℝ)
    (hn : 1 ≤ s1.nAssetsOf income t) :
    (s1.assetPhase income t).2 = some PyErr.typeError ∧
    (s1.assetPhase income t).1.assets = s1.assets ∧
    (s1.assetPhase income t).1.giving_tracker = s1.giving_tracker ∧
    (s1.assetPhase income t).1.retirement_investment = s1.retirement_investment ∧
    (s1.assetPhase income t).1.giving_investment = s1.giving_investment ∧
    (s1.savingsSufficient income t = false →
      (s1.assetPhase income t).1.asset_savings = s1.asset_savings) ∧
    (s1.savingsSufficient income t = true →
      ∃ (asv : Investment ℝ) (tax2 : ℝ),
        s1.asset_savings.withdraw_accounting_for_taxes
          (s1.assetPriceAt t - (s1.preDecision income t).2) t = .ok (asv, tax2) ∧
        (s1.assetPhase income t).1.asset_savings = asv) := by
  cases hsuff : s1.savingsSufficient income t with
  | false =>
    have hn1 : 1 ≤ (s1.preDecision income t).1 := by
      unfold PMState.nAssetsOf at hn
      rw [hsuff] at hn
      simpa using hn
    have hphase : s1.assetPhase income t = (s1, some PyErr.typeError) := by
      unfold PMState.assetPhase
      dsimp only
      rw [if_neg (by rw [hsuff]; simp)]
      exact PMState.finishPurchase_spec s1 _ _ _ _ hn1
    rw [hphase]
    refine ⟨rfl, rfl, rfl, rfl, rfl, fun _ => rfl, fun h => ?_⟩
    simp at h
  | true =>
    have hts : s1.asset_savings.test_sufficient_funds
        (s1.assetPriceAt t - (s1.preDecision income t).2) = true := hsuff
    obtain ⟨cb2, hcb2⟩ := Investment.test_sufficient_funds_some _ _ _ hts
    obtain ⟨asv, tax2, hwd2⟩ :=
      Investment.withdraw_ok_of_some s1.asset_savings
        (s1.assetPriceAt t - (s1.preDecision income t).2) t (15 / 100) cb2 hcb2
    have hn1 : 1 ≤ (s1.preDecision income t).1 + 1 := by
      unfold PMState.nAssetsOf at hn
      rw [hsuff] at hn
      simpa using hn
    have hphase : s1.assetPhase income t =
        (({ s1 with asset_savings := asv } : PMState), some PyErr.typeError) := by
      unfold PMState.assetPhase
      dsimp only
      rw [if_pos hsuff, hwd2]
      exact PMState.finishPurchase_spec _ _ _ _ _ hn1
    rw [hphase]
    refine ⟨rfl, rfl, rfl, rfl, rfl, fun h => ?_, fun _ => ⟨asv, tax2, hwd2, rfl⟩⟩
    simp at h

/-- `_get_paid` never modifies the asset list, on any path. -/
theorem PMState.getPaid_assets (s : PMState) (t : ℝ) :
    (s.getPaid t).1.assets = s.assets := by
  unfold PMState.getPaid
  dsimp only
  split
  · rfl
  · split
    · rfl
    · split
      · rfl
      · rfl

/-- `_purchase_assets` never modifies the asset list: either the unit count is
zero (empty loop), or the first iteration raises before appending. -/
theorem PMState.purchaseLoop_assets (ap : ℝ) (k i : ℕ) (s : PMState) :
    (PMState.purchaseLoop ap k i s).1.assets = s.assets := by
  cases k with
  | zero => rfl
  | succ k => rfl

theorem PMState.finishPurchase_assets (s : PMState) (n : ℤ) (di t ap : ℝ) :
    (s.finishPurchase n di t ap).1.assets = s.assets := by
  unfold PMState.finishPurchase
  split
  · rfl
  · exact PMState.purchaseLoop_assets ap n.toNat 0 s

theorem PMState.assetPhase_assets (s1 : PMState) (income t : ℝ) :
    (s1.assetPhase income t).1.assets = s1.assets := by
  unfold PMState.assetPhase
  dsimp only
  split
  · split
    · rfl
    · exact PMState.finishPurchase_assets _ _ _ _ _
  · exact PMState.finishPurchase_assets _ _ _ _ _

theorem PMState.manageIncome_assets (s : PMState) (income t : ℝ) :
    (s.manageIncome income t).1.assets = s.assets := by
  unfold PMState.manageIncome
  dsimp only
  split
  · rfl
  · exact PMState.assetPhase_assets _ income t

theorem PMState.growInvestmentsAndAssets_assets (s : PMState) (t : ℝ) (m : ℕ) :
    (s.growInvestmentsAndAssets t m).1.assets = s.assets := by
  unfold PMState.growInvestmentsAndAssets
  dsimp only
  split
  · split
    · rfl
    · rfl
  · rfl

/-- `simulate_month` never modifies the asset list, on any path (the purchase
path raises first; the month-12 asset loop raises `NameError` on a nonempty
list before mutating anything). -/
theorem PMState.simulateMonth_assets (s : PMState) (t : ℝ) :
    (s.simulateMonth t).1.assets = s.assets := by
  unfold PMState.simulateMonth
  dsimp only
  rcases hgp : s.getPaid t with ⟨s1, res1⟩
  have h1 : s1.assets = s.assets := by
    have := PMState.getPaid_assets s t
    rw [hgp] at this
    exact this
  cases res1 with
  | error e =>
    dsimp only
    exact h1
  | ok income =>
    dsimp only
    rcases hmi : s1.manageIncome income t with ⟨s2, res2⟩
    have h2 : s2.assets = s1.assets := by
      have := PMState.manageIncome_assets s1 income t
      rw [hmi] at this
      exact this
    cases res2 with
    | some e => rw [← h1, ← h2]
    | none =>
      dsimp only
      rcases hgr : s2.growInvestmentsAndAssets t (currentMonth t) with ⟨s3, res3⟩
      have h3 : s3.assets = s2.assets := by
        have := PMState.growInvestmentsAndAssets_assets s2 t (currentMonth t)
        rw [hgr] at this
        exact this
      cases res3 with
      | some e => rw [← h1, ← h2, ← h3]
      | none =>
        dsimp only
        split
        · show s3.closeOutYear.assets = s.assets
          rw [← h1, ← h2, ← h3]
          rfl
        · rw [← h1, ← h2, ← h3]

/-- Asset-list preservation extends to whole driver runs. -/
theorem PMState.runMonths_assets (ts : List ℝ) : ∀ s : PMState,
    (PMState.runMonths ts s).assets = s.assets := by
  induction ts with
  | nil => intro s; rfl
  | cons t rest ih =>
    intro s
    have hstep : PMState.runMonths (t :: rest) s =
        PMState.runMonths rest (s.simulateMonth t).1 := rfl
    rw [hstep, ih, PMState.simulateMonth_assets]

/-- C2: (1) in any simulated month whose purchase decision selects `n_assets ≥ 1`,
`_manage_income` raises `TypeError` (the `Asset` constructor call omits the
required `years_from_start`) before any Asset is appended: the asset list is
unchanged, while the month's earlier ledger updates — the giving drawdown
withdrawal and contribution, the two giving-tracker rows, the retirement
contribution, and the asset-savings withdrawal when taken — persist un-rolled-back;
(2) `simulate_month` never changes the asset list on any path; (3) hence every
state reachable by a driver run from a freshly constructed (and optionally
seeded) `PortfolioManager` has an empty asset collection. -/
theorem purchase_assets_raises_and_assets_stay_empty :
    (∀ (income t : ℝ) (s : PMState) (cb : ℝ),
        s.giving_investment.cost_basis = some cb →
        1 ≤ s.nAssetsOf income t →
        (s.manageIncome income t).2 = some PyErr.typeError ∧
        (s.manageIncome income t).1.assets = s.assets ∧
        (s.manageIncome income t).1.giving_tracker =
          (s.giving_tracker.add
            (s.genstrat.straight_invest (s.fiveSplit income).2.2.2.2).1 t).add
            s.withdrawalOf t ∧
        (s.manageIncome income t).1.retirement_investment =
          s.retirement_investment.add (s.fiveSplit income).2.1 t ∧
        (∃ (gi : Investment ℝ) (tax : ℝ),
          s.giving_investment.withdraw_accounting_for_taxes s.withdrawalOf t
            = .ok (gi, tax) ∧
          (s.manageIncome income t).1.giving_investment =
            gi.add (s.genstrat.straight_invest (s.fiveSplit income).2.2.2.2).2 t) ∧
        (s.savingsSufficient income t = false →
          (s.manageIncome income t).1.asset_savings = s.asset_savings) ∧
        (s.savingsSufficient income t = true →
          ∃ (asv : Investment ℝ) (tax2 : ℝ),
            s.asset_savings.withdraw_accounting_for_taxes
              (s.assetPriceAt t - (s.preDecision income t).2) t = .ok (asv, tax2) ∧
            (s.manageIncome income t).1.asset_savings = asv)) ∧
    (∀ (t : ℝ) (s : PMState), (s.simulateMonth t).1.assets = s.assets) ∧
    (∀ (ts : List ℝ) (sp : SpendingStrategy ℝ) (gp : GenerosityStrategy ℝ)
        (sal : Salary ℝ) (ra ga : ℝ),
        (PMState.runMonths ts
          (((PMState.init sp gp sal).init_retirement_savings
            ra).init_giving_savings ga)).assets = []) := by
  refine ⟨?_, fun t s => PMState.simulateMonth_assets s t, ?_⟩
  · intro income t s cb hcb hn
    obtain ⟨gi, tax, hwd⟩ :=
      Investment.withdraw_ok_of_some s.giving_investment s.withdrawalOf t
        (15 / 100) cb hcb
    have hmi : s.manageIncome income t =
        PMState.assetPhase
          { s with
            giving_investment := gi.add
              (s.genstrat.straight_invest (s.fiveSplit income).2.2.2.2).2 t
            giving_tracker := (s.giving_tracker.add
              (s.genstrat.straight_invest (s.fiveSplit income).2.2.2.2).1 t).add
              s.withdrawalOf t
            retirement_investment :=
              s.retirement_investment.add (s.fiveSplit income).2.1 t }
          income t := by
      unfold PMState.manageIncome
      dsimp only
      rw [hwd]
    have hn1 : 1 ≤ PMState.nAssetsOf
        { s with
          giving_investment := gi.add
            (s.genstrat.straight_invest (s.fiveSplit income).2.2.2.2).2 t
          giving_tracker := (s.giving_tracker.add
            (s.genstrat.straight_invest (s.fiveSplit income).2.2.2.2).1 t).add
            s.withdrawalOf t
          retirement_investment :=
            s.retirement_investment.add (s.fiveSplit income).2.1 t }
        income t := hn
    obtain ⟨he, ha, hgt, hri, hgi, hsf, hst⟩ :=
      PMState.assetPhase_spec _ income t hn1
    rw [hmi]
    exact ⟨he, ha, hgt, hri, ⟨gi, tax, hwd, hgi⟩, hsf, hst⟩
  · intro ts sp gp sal ra ga
    rw [PMState.runMonths_assets]
    rfl

/-- C2 witness: a manager with strategy fractions 0 (everything disposable,
all of it to invest), giving investment seeded with 100, monthly income
504000 at time 1/24 (month 1): the decision selects at least one asset unit
(504000 ≥ 150000·1.04^(1/24)), `_manage_income` raises `TypeError`, the
asset list is unchanged, and — the savings check being false on the unseeded
fund — the asset-savings ledger is exactly as before the raise. -/
theorem purchase_assets_raises_witness :
    ((PMState.init (SpendingStrategy.init 0 0 0 0)
        (GenerosityStrategy.init 1 (12 / 100) 0)
        (Salary.mk 9600000)).init_giving_savings
        100).giving_investment.cost_basis = some 1 ∧
    1 ≤ ((PMState.init (SpendingStrategy.init 0 0 0 0)
        (GenerosityStrategy.init 1 (12 / 100) 0)
        (Salary.mk 9600000)).init_giving_savings 100).nAssetsOf 504000 (1 / 24) ∧
    (((PMState.init (SpendingStrategy.init 0 0 0 0)
        (GenerosityStrategy.init 1 (12 / 100) 0)
        (Salary.mk 9600000)).init_giving_savings 100).manageIncome 504000
        (1 / 24)).2 = some PyErr.typeError ∧
    (((PMState.init (SpendingStrategy.init 0 0 0 0)
        (GenerosityStrategy.init 1 (12 / 100) 0)
        (Salary.mk 9600000)).init_giving_savings 100).manageIncome 504000
        (1 / 24)).1.assets =
      ((PMState.init (SpendingStrategy.init 0 0 0 0)
        (GenerosityStrategy.init 1 (12 / 100) 0)
        (Salary.mk 9600000)).init_giving_savings 100).assets ∧
    (((PMState.init (SpendingStrategy.init 0 0 0 0)
        (GenerosityStrategy.init 1 (12 / 100) 0)
        (Salary.mk 9600000)).init_giving_savings 100).manageIncome 504000
        (1 / 24)).1.asset_savings =
      ((PMState.init (SpendingStrategy.init 0 0 0 0)
        (GenerosityStrategy.init 1 (12 / 100) 0)
        (Salary.mk 9600000)).init_giving_savings 100).asset_savings := by
  set s0 : PMState :=
    (PMState.init (SpendingStrategy.init 0 0 0 0)
      (GenerosityStrategy.init 1 (12 / 100) 0)
      (Salary.mk 9600000)).init_giving_savings 100 with hs0
  have hcb : s0.giving_investment.cost_basis = some 1 := rfl
  have hap_eq : s0.assetPriceAt (1 / 24) =
      150000 * (1 + 4 / 100) ^ ((1 : ℝ) / 24) := rfl
  have hap_pos : (0 : ℝ) < 150000 * (1 + 4 / 100) ^ ((1 : ℝ) / 24) := by
    have := Real.rpow_pos_of_pos (show (0 : ℝ) < 1 + 4 / 100 by norm_num)
      ((1 : ℝ) / 24)
    nlinarith
  have hrp : (1 + (4 : ℝ) / 100) ^ ((1 : ℝ) / 24) ≤ 1 + 4 / 100 := by
    have h := Real.rpow_le_rpow_of_exponent_le
      (show (1 : ℝ) ≤ 1 + 4 / 100 by norm_num)
      (show (1 : ℝ) / 24 ≤ 1 by norm_num)
    rwa [Real.rpow_one] at h
  have hle : (150000 : ℝ) * ((1 : ℝ) + 4 / 100) ^ ((1 : ℝ) / 24) ≤ 504000 := by
    nlinarith
  have hdi : (s0.fiveSplit 504000).2.2.2.1 = (504000 : ℝ) := by
    show (504000 : ℝ) * (1 - 0 - 0) * (1 - 0 - 0) = 504000
    norm_num
  have hss : s0.savingsSufficient 504000 (1 / 24) = false := rfl
  have hpre1 : 1 ≤ (s0.preDecision 504000 (1 / 24)).1 := by
    unfold PMState.preDecision
    dsimp only
    rw [hdi, hap_eq, if_pos hle]
    dsimp only
    unfold pyInt
    rw [if_pos (le_of_lt (div_pos (by norm_num) hap_pos))]
    refine Int.le_floor.mpr ?_
    push_cast
    exact (one_le_div hap_pos).mpr hle
  have hn : 1 ≤ s0.nAssetsOf 504000 (1 / 24) := by
    unfold PMState.nAssetsOf
    rw [hss]
    simpa using hpre1
  obtain ⟨he, ha, _, _, _, hsf, _⟩ :=
    purchase_assets_raises_and_assets_stay_empty.1 504000 (1 / 24) s0 1 hcb hn
  exact ⟨hcb, hn, he, ha, hsf hss⟩
